import Mathlib

set_option maxRecDepth 40000

/-!
Verification of the `research-tool` CLI (src/main.rs): a single-shot
chat-completion client.  The development below is a shallow embedding of the
program's pure decision logic:

* the query/credential resolution step of `main` (lines 238-256),
* the `ChatRequest` construction and its `serde_json` serialization
  (lines 168-187 and 266-292),
* the HTTP-status interpretation branch (lines 324-339),
* the parse-failure diagnostic construction, including the panicking
  byte-slice `&text[..200.min(text.len())]` (lines 341-345),
* a `serde_json` parser/decoder for the `ChatResponse` wire shape
  (lines 189-221), restricted to integer numeric literals (the wire
  shapes consumed by the program carry only `u32` token counts), and
* the success-branch output logic and the overall straight-line control
  flow of `main` (lines 295-387), with the stderr stream modelled as the
  ordered list of `eprintln!` payloads and instrumentation flags recording
  whether the network call was issued, whether `timer_handle.abort()` was
  executed, and whether the JSON body was parsed.

Strings are Lean `String`s (sequences of Unicode scalar values); byte-level
facts about Rust's UTF-8 `str` indexing are computed through `Char.utf8Size`.
-/

/-! ## Rust string primitives -/

/-- Unicode `White_Space` property, the predicate behind Rust's
`char::is_whitespace` used by `str::trim`. -/
def isRustWhitespace (c : Char) : Bool :=
  let n := c.toNat
  (0x9 ≤ n && n ≤ 0xD) || n == 0x20 || n == 0x85 || n == 0xA0 || n == 0x1680 ||
  (0x2000 ≤ n && n ≤ 0x200A) || n == 0x2028 || n == 0x2029 || n == 0x202F ||
  n == 0x205F || n == 0x3000

/-- Rust's `str::trim`: strip leading and trailing Unicode whitespace. -/
def rustTrim (s : String) : String :=
  String.mk (((s.data.dropWhile isRustWhitespace).reverse.dropWhile
    isRustWhitespace).reverse)

/-- Byte length of a string under UTF-8, Rust's `str::len`. -/
def byteLen (s : String) : Nat :=
  s.data.foldl (fun a c => a + c.utf8Size) 0

/-- Rust byte-slicing `&text[..n]` on a UTF-8 string, as a list of chars:
returns `none` (a panic) when `n` does not fall on a character boundary,
mirroring `str::index` for `RangeTo`.  `n` is assumed `≤` the byte length
(the program guarantees this via `200.min(text.len())`); a larger `n` also
yields `none`, as the same indexing panics out of bounds. -/
def slicePrefixBytes : List Char → Nat → Option (List Char)
  | _, 0 => some []
  | [], Nat.succ _ => none
  | c :: rest, Nat.succ m =>
    if c.utf8Size ≤ m + 1 then
      (slicePrefixBytes rest (m + 1 - c.utf8Size)).map (fun l => c :: l)
    else
      none

/-- Boolean list-prefix test used to relate diagnostic strings. -/
def strStartsWith (p s : String) : Bool :=
  List.isPrefixOf p.data s.data

/-- Boolean substring test (needle occurs contiguously in haystack). -/
def strContainsSub (needle s : String) : Bool :=
  (List.range (s.data.length + 1)).any
    (fun i => List.isPrefixOf needle.data (s.data.drop i))

/-! ## Wire data model (mirrors the serde structs of main.rs) -/

/-- struct ChatMessage \x7b role: String, content: String \x7d -/
structure ChatMessage where
  role : String
  content : String
deriving DecidableEq, Repr

/-- struct Reasoning \x7b effort: String \x7d -/
structure Reasoning where
  effort : String
deriving DecidableEq, Repr

/-- struct ChatRequest: model, messages, optional max_tokens, optional
reasoning (the two `Option` fields carry `skip_serializing_if` attributes). -/
structure ChatRequest where
  model : String
  messages : List ChatMessage
  max_tokens : Option Nat
  reasoning : Option Reasoning
deriving DecidableEq, Repr

/-- struct Usage \x7b prompt_tokens, completion_tokens, total_tokens: u32 \x7d -/
structure Usage where
  prompt_tokens : Nat
  completion_tokens : Nat
  total_tokens : Nat
deriving DecidableEq, Repr

/-- struct MessageContent \x7b content, reasoning, reasoning_content:
Option<String> \x7d -/
structure MessageContent where
  content : Option String
  reasoning : Option String
  reasoning_content : Option String
deriving DecidableEq, Repr

/-- struct Choice \x7b message: Option<MessageContent> \x7d -/
structure Choice where
  message : Option MessageContent
deriving DecidableEq, Repr

/-! ## JSON values (the target of the serde_json parser below) -/

/-- JSON values; numbers are restricted to integers, which covers every
numeric field of the wire shapes the program consumes (`u32` counts). -/
inductive Json where
  | null
  | bool (b : Bool)
  | num (n : Int)
  | str (s : String)
  | arr (elems : List Json)
  | obj (fields : List (String × Json))

/-- struct ApiError \x7b message: String, code: Option<serde_json::Value> \x7d -/
structure ApiError where
  message : String
  code : Option Json

/-- struct ChatResponse \x7b choices, usage, error — all Option \x7d -/
structure ChatResponse where
  choices : Option (List Choice)
  usage : Option Usage
  error : Option ApiError

/-! ## serde_json serialization of ChatRequest -/

/-- Lowercase hex digit. -/
def hexDigit (n : Nat) : Char :=
  if n < 10 then Char.ofNat (48 + n) else Char.ofNat (87 + n)

/-- Four lowercase hex digits, serde_json's `\uXXXX` payload. -/
def hex4 (n : Nat) : String :=
  String.mk [hexDigit (n / 4096 % 16), hexDigit (n / 256 % 16),
             hexDigit (n / 16 % 16), hexDigit (n % 16)]

/-- serde_json string escaping: `"` and `\` are backslash-escaped, control
characters below 0x20 use the short escapes or `\uXXXX`; everything else is
emitted verbatim. -/
def escapeJsonChar (c : Char) : String :=
  if c = Char.ofNat 34 then "\\\""
  else if c = Char.ofNat 92 then "\\\\"
  else if c = Char.ofNat 10 then "\\n"
  else if c = Char.ofNat 13 then "\\r"
  else if c = Char.ofNat 9 then "\\t"
  else if c = Char.ofNat 8 then "\\b"
  else if c = Char.ofNat 12 then "\\f"
  else if c.toNat < 0x20 then "\\u" ++ hex4 c.toNat
  else String.mk [c]

/-- Serialized JSON string literal. -/
def jsonStr (s : String) : String :=
  "\"" ++ String.join (s.data.map escapeJsonChar) ++ "\""

/-- Serialization of one ChatMessage, field order as declared. -/
def serializeMessage (m : ChatMessage) : String :=
  "\x7b\"role\":" ++ jsonStr m.role ++ ",\"content\":" ++ jsonStr m.content ++ "\x7d"

/-- serde_json::to_string for ChatRequest: fields in declaration order,
`max_tokens` and `reasoning` omitted when `None` (skip_serializing_if). -/
def serializeChatRequest (r : ChatRequest) : String :=
  "\x7b\"model\":" ++ jsonStr r.model ++
  ",\"messages\":[" ++ String.intercalate "," (r.messages.map serializeMessage) ++ "]" ++
  (match r.max_tokens with
   | none => ""
   | some n => ",\"max_tokens\":" ++ toString n) ++
  (match r.reasoning with
   | none => ""
   | some rr => ",\"reasoning\":\x7b\"effort\":" ++ jsonStr rr.effort ++ "\x7d") ++
  "\x7d"

/-! ## Configuration resolution and request construction (main, lines 236-292) -/

/-- Parsed command-line arguments after clap's flag/env resolution
(struct Args).  `api_key` is the value of the hidden flag or the
`OPENROUTER_API_KEY` environment variable (possibly populated from a dotenv
file); `none` means no key was resolvable from any source. -/
structure Args where
  query : List String
  stdinFlag : Bool
  model : String
  effort : String
  system : Option String
  max_tokens : Nat
  timeout : Option Nat
  api_key : Option String
deriving DecidableEq, Repr

/-- Error message of the `anyhow::bail!` for a missing query (lines 249-253). -/
def noQueryMsg : String :=
  "No query provided.\n\nUsage: research-tool \"your question here\"\nHelp:  research-tool --help"

/-- Query construction (lines 244-256): entire stdin trimmed when `--stdin`
was given; otherwise the positional tokens joined with single spaces, with
the bail firing exactly when that token list is empty. -/
def buildQuery (args : Args) (stdinContent : String) : Except String String :=
  if args.stdinFlag then
    Except.ok (rustTrim stdinContent)
  else if args.query.isEmpty then
    Except.error noQueryMsg
  else
    Except.ok (String.intercalate " " args.query)

/-- Default research-assistant persona (lines 268-273). -/
def defaultSystemPrompt : String :=
  "You are a research assistant. Provide detailed, accurate answers with sources and citations where possible. Focus on factual, verifiable information. When citing web sources, include URLs."

/-- System prompt resolution: `args.system.unwrap_or_else(default)`. -/
def resolveSystemPrompt (args : Args) : String :=
  args.system.getD defaultSystemPrompt

/-- Resolved configuration feeding request construction. -/
structure QueryConfig where
  model : String
  effort : String
  systemPrompt : String
  userQuery : String
  maxTokens : Nat
deriving DecidableEq, Repr

/-- Request construction (lines 266-292): system message first, user message
second, `max_tokens` always set, `reasoning.effort` copied verbatim. -/
def buildChatRequest (c : QueryConfig) : ChatRequest :=
  { model := c.model
    messages := [⟨"system", c.systemPrompt⟩, ⟨"user", c.userQuery⟩]
    max_tokens := some c.maxTokens
    reasoning := some ⟨c.effort⟩ }

/-- The request the program would send for given arguments and stdin
contents, or the configuration error that stops it. -/
def requestOf (args : Args) (stdinContent : String) : Except String ChatRequest :=
  (buildQuery args stdinContent).map
    (fun q => buildChatRequest
      ⟨args.model, args.effort, resolveSystemPrompt args, q, args.max_tokens⟩)

/-! ## Parse-failure diagnostic (lines 341-345) -/

/-- Builder of the `context` string for a parse failure:
`format!("Failed to parse API response: \x7b\x7d", &text[..200.min(text.len())])`.
Returns `none` when the byte slice panics (byte index `200.min(len)` not on a
character boundary). -/
def parseDiagnostic (text : String) : Option String :=
  (slicePrefixBytes text.data (min 200 (byteLen text))).map
    (fun cs => "Failed to parse API response: " ++ String.mk cs)

/-! ## serde_json parsing of the response body (lines 341-345 feed it to
`serde_json::from_str::<ChatResponse>`) -/

/-- JSON insignificant whitespace. -/
def isJsonWs (c : Char) : Bool :=
  c == Char.ofNat 0x20 || c == Char.ofNat 0x9 || c == Char.ofNat 0xA ||
  c == Char.ofNat 0xD

/-- Skip insignificant whitespace. -/
def skipWs (cs : List Char) : List Char :=
  cs.dropWhile isJsonWs

/-- Value of one hex digit, if any. -/
def hexVal (c : Char) : Option Nat :=
  if 48 ≤ c.toNat && c.toNat ≤ 57 then some (c.toNat - 48)
  else if 97 ≤ c.toNat && c.toNat ≤ 102 then some (c.toNat - 87)
  else if 65 ≤ c.toNat && c.toNat ≤ 70 then some (c.toNat - 55)
  else none

/-- Four hex digits of a `\uXXXX` escape. -/
def parseHex4 : List Char → Option (Nat × List Char)
  | a :: b :: c :: d :: rest =>
    match hexVal a, hexVal b, hexVal c, hexVal d with
    | some va, some vb, some vc, some vd =>
      some (va * 4096 + vb * 256 + vc * 16 + vd, rest)
    | _, _, _, _ => none
  | _ => none

/-- Consume an expected literal tail such as `ull` of `null`. -/
def expectChars : List Char → List Char → Option (List Char)
  | [], rest => some rest
  | e :: es, c :: rest => if c == e then expectChars es rest else none
  | _ :: _, [] => none

/-- JSON string contents after the opening quote, handling the escape set of
RFC 8259 (lone surrogate escapes rejected, as serde_json rejects them). -/
def parseStrChars : Nat → List Char → Option (List Char × List Char)
  | 0, _ => none
  | Nat.succ _, [] => none
  | Nat.succ fuel, c :: rest =>
    if c == Char.ofNat 34 then some ([], rest)
    else if c == Char.ofNat 92 then
      match rest with
      | [] => none
      | e :: rest2 =>
        if e == Char.ofNat 34 then
          (parseStrChars fuel rest2).map (fun p => (Char.ofNat 34 :: p.1, p.2))
        else if e == Char.ofNat 92 then
          (parseStrChars fuel rest2).map (fun p => (Char.ofNat 92 :: p.1, p.2))
        else if e == Char.ofNat 47 then
          (parseStrChars fuel rest2).map (fun p => (Char.ofNat 47 :: p.1, p.2))
        else if e == 'n' then
          (parseStrChars fuel rest2).map (fun p => (Char.ofNat 10 :: p.1, p.2))
        else if e == 't' then
          (parseStrChars fuel rest2).map (fun p => (Char.ofNat 9 :: p.1, p.2))
        else if e == 'r' then
          (parseStrChars fuel rest2).map (fun p => (Char.ofNat 13 :: p.1, p.2))
        else if e == 'b' then
          (parseStrChars fuel rest2).map (fun p => (Char.ofNat 8 :: p.1, p.2))
        else if e == 'f' then
          (parseStrChars fuel rest2).map (fun p => (Char.ofNat 12 :: p.1, p.2))
        else if e == 'u' then
          match parseHex4 rest2 with
          | none => none
          | some (n, rest3) =>
            if 0xD800 ≤ n && n ≤ 0xDFFF then none
            else (parseStrChars fuel rest3).map (fun p => (Char.ofNat n :: p.1, p.2))
        else none
    else if c.toNat < 0x20 then none
    else (parseStrChars fuel rest).map (fun p => (c :: p.1, p.2))

/-- Unsigned decimal digit run with JSON's no-leading-zero rule. -/
def parseNatDigits (cs : List Char) : Option (Nat × List Char) :=
  let ds := cs.takeWhile Char.isDigit
  let rest := cs.dropWhile Char.isDigit
  if ds.isEmpty then none
  else if 1 < ds.length && ds.head? == some '0' then none
  else some (ds.foldl (fun a c => a * 10 + (c.toNat - 48)) 0, rest)

/-- Integer JSON number, optionally negative; a following fraction or
exponent marker is rejected (the integer fragment suffices for the wire
shapes consumed here). -/
def parseIntNum (cs : List Char) : Option (Int × List Char) :=
  match cs with
  | '-' :: rest =>
    match parseNatDigits rest with
    | none => none
    | some (n, rest2) =>
      match rest2 with
      | c :: _ => if c == '.' || c == 'e' || c == 'E' then none
                  else some (-(n : Int), rest2)
      | [] => some (-(n : Int), rest2)
  | _ =>
    match parseNatDigits cs with
    | none => none
    | some (n, rest2) =>
      match rest2 with
      | c :: _ => if c == '.' || c == 'e' || c == 'E' then none
                  else some ((n : Int), rest2)
      | [] => some ((n : Int), rest2)

mutual

/-- One JSON value, leading whitespace allowed. -/
def parseValue : Nat → List Char → Option (Json × List Char)
  | 0, _ => none
  | Nat.succ fuel, cs =>
    match skipWs cs with
    | [] => none
    | c :: rest =>
      if c == 'n' then
        (expectChars ['u', 'l', 'l'] rest).map (fun r => (Json.null, r))
      else if c == 't' then
        (expectChars ['r', 'u', 'e'] rest).map (fun r => (Json.bool true, r))
      else if c == 'f' then
        (expectChars ['a', 'l', 's', 'e'] rest).map (fun r => (Json.bool false, r))
      else if c == Char.ofNat 34 then
        (parseStrChars (rest.length + 1) rest).map
          (fun p => (Json.str (String.mk p.1), p.2))
      else if c == '[' then
        parseElems fuel (skipWs rest) true
      else if c == Char.ofNat 0x7B then
        parseFields fuel (skipWs rest) true
      else
        (parseIntNum (c :: rest)).map (fun p => (Json.num p.1, p.2))

/-- Array elements after `[` (whitespace already skipped); `first` is true
until the first element has been read, so `]` closes an empty array only
there (no trailing commas). -/
def parseElems : Nat → List Char → Bool → Option (Json × List Char)
  | 0, _, _ => none
  | Nat.succ fuel, cs, first =>
    match cs with
    | ']' :: rest => if first then some (Json.arr [], rest) else none
    | _ =>
      match parseValue fuel cs with
      | none => none
      | some (v, rest) =>
        match skipWs rest with
        | ']' :: rest2 => some (Json.arr [v], rest2)
        | ',' :: rest2 =>
          match parseElems fuel (skipWs rest2) false with
          | some (Json.arr vs, rest3) => some (Json.arr (v :: vs), rest3)
          | _ => none
        | _ => none

/-- Object members after the opening brace (whitespace already skipped). -/
def parseFields : Nat → List Char → Bool → Option (Json × List Char)
  | 0, _, _ => none
  | Nat.succ fuel, cs, first =>
    match cs with
    | c :: rest =>
      if c == Char.ofNat 0x7D then
        if first then some (Json.obj [], rest) else none
      else if c == Char.ofNat 34 then
        match parseStrChars (rest.length + 1) rest with
        | none => none
        | some (key, rest2) =>
          match skipWs rest2 with
          | ':' :: rest3 =>
            match parseValue fuel rest3 with
            | none => none
            | some (v, rest4) =>
              match skipWs rest4 with
              | c2 :: rest5 =>
                if c2 == Char.ofNat 0x7D then
                  some (Json.obj [(String.mk key, v)], rest5)
                else if c2 == ',' then
                  match parseFields fuel (skipWs rest5) false with
                  | some (Json.obj fs, rest6) =>
                    some (Json.obj ((String.mk key, v) :: fs), rest6)
                  | _ => none
                else none
              | [] => none
          | _ => none
      else none
    | [] => none

end

/-- serde_json::from_str's top level: one value, then only trailing
whitespace. -/
def parseJsonText (s : String) : Option Json :=
  match parseValue (2 * s.data.length + 4) s.data with
  | some (v, rest) => if (skipWs rest).isEmpty then some v else none
  | none => none

/-! ## serde derive decoding into ChatResponse (lines 189-221) -/

/-- Decode a JSON string. -/
def asStr : Json → Option String
  | Json.str s => some s
  | _ => none

/-- First value bound to a field name. -/
def lookupField (fields : List (String × Json)) (k : String) : Option Json :=
  (fields.find? (fun p => p.1 == k)).map (fun p => p.2)

/-- Number of bindings of a field name (serde rejects duplicates of a known
field). -/
def countField (fields : List (String × Json)) (k : String) : Nat :=
  (fields.filter (fun p => p.1 == k)).length

/-- Decode an `Option<T>` field of a serde derive struct: missing or `null`
gives `None`, anything else must decode as `T`; a duplicate is an error. -/
def optField (fields : List (String × Json)) (k : String)
    (dec : Json → Option α) : Option (Option α) :=
  if 1 < countField fields k then none
  else
    match lookupField fields k with
    | none => some none
    | some Json.null => some none
    | some v => (dec v).map some

/-- Decode a required `u32` field: must be present, integral and in range. -/
def reqU32Field (fields : List (String × Json)) (k : String) : Option Nat :=
  if 1 < countField fields k then none
  else
    match lookupField fields k with
    | some (Json.num n) => if 0 ≤ n ∧ n < 4294967296 then some n.toNat else none
    | _ => none

/-- Deserialize MessageContent (unknown fields ignored, all fields Option). -/
def decodeMessageContent : Json → Option MessageContent
  | Json.obj fs => do
    let content ← optField fs "content" asStr
    let reasoning ← optField fs "reasoning" asStr
    let rc ← optField fs "reasoning_content" asStr
    some ⟨content, reasoning, rc⟩
  | _ => none

/-- Deserialize Choice. -/
def decodeChoice : Json → Option Choice
  | Json.obj fs => do
    let m ← optField fs "message" decodeMessageContent
    some ⟨m⟩
  | _ => none

/-- Deserialize Usage (all three counts required). -/
def decodeUsage : Json → Option Usage
  | Json.obj fs => do
    let p ← reqU32Field fs "prompt_tokens"
    let c ← reqU32Field fs "completion_tokens"
    let t ← reqU32Field fs "total_tokens"
    some ⟨p, c, t⟩
  | _ => none

/-- Deserialize ApiError (`message` required, `code` an arbitrary value). -/
def decodeApiError : Json → Option ApiError
  | Json.obj fs => do
    let msg ←
      (if 1 < countField fs "message" then none
       else
         match lookupField fs "message" with
         | some (Json.str s) => some s
         | _ => none)
    let code ← optField fs "code" (fun v => some v)
    some ⟨msg, code⟩
  | _ => none

/-- Deserialize Vec<Choice>. -/
def decodeChoices (j : Json) : Option (List Choice) :=
  match j with
  | Json.arr l => l.mapM decodeChoice
  | _ => none

/-- Deserialize ChatResponse. -/
def decodeChatResponse : Json → Option ChatResponse
  | Json.obj fs => do
    let ch ← optField fs "choices" decodeChoices
    let us ← optField fs "usage" decodeUsage
    let er ← optField fs "error" decodeApiError
    some ⟨ch, us, er⟩
  | _ => none

/-- serde_json::from_str::<ChatResponse> (line 341). -/
def parseChatResponse (s : String) : Option ChatResponse :=
  (parseJsonText s).bind decodeChatResponse

/-! ## HTTP status interpretation (lines 319-339) -/

/-- reqwest's StatusCode::is_success: 2xx. -/
def isSuccessStatus (s : Nat) : Bool :=
  200 ≤ s && s < 300

/-- Canonical reason phrase appended by the Display impl of StatusCode. -/
def canonicalReason (s : Nat) : String :=
  match s with
  | 100 => "Continue" | 101 => "Switching Protocols" | 102 => "Processing"
  | 200 => "OK" | 201 => "Created" | 202 => "Accepted"
  | 203 => "Non Authoritative Information" | 204 => "No Content"
  | 205 => "Reset Content" | 206 => "Partial Content" | 207 => "Multi-Status"
  | 208 => "Already Reported" | 226 => "IM Used"
  | 300 => "Multiple Choices" | 301 => "Moved Permanently" | 302 => "Found"
  | 303 => "See Other" | 304 => "Not Modified" | 305 => "Use Proxy"
  | 307 => "Temporary Redirect" | 308 => "Permanent Redirect"
  | 400 => "Bad Request" | 401 => "Unauthorized" | 402 => "Payment Required"
  | 403 => "Forbidden" | 404 => "Not Found" | 405 => "Method Not Allowed"
  | 406 => "Not Acceptable" | 407 => "Proxy Authentication Required"
  | 408 => "Request Timeout" | 409 => "Conflict" | 410 => "Gone"
  | 411 => "Length Required" | 412 => "Precondition Failed"
  | 413 => "Payload Too Large" | 414 => "URI Too Long"
  | 415 => "Unsupported Media Type" | 416 => "Range Not Satisfiable"
  | 417 => "Expectation Failed" | 418 => "I\u0027m a teapot"
  | 421 => "Misdirected Request" | 422 => "Unprocessable Entity"
  | 423 => "Locked" | 424 => "Failed Dependency" | 426 => "Upgrade Required"
  | 428 => "Precondition Required" | 429 => "Too Many Requests"
  | 431 => "Request Header Fields Too Large"
  | 451 => "Unavailable For Legal Reasons"
  | 500 => "Internal Server Error" | 501 => "Not Implemented"
  | 502 => "Bad Gateway" | 503 => "Service Unavailable"
  | 504 => "Gateway Timeout" | 505 => "HTTP Version Not Supported"
  | 506 => "Variant Also Negotiates" | 507 => "Insufficient Storage"
  | 508 => "Loop Detected" | 510 => "Not Extended"
  | 511 => "Network Authentication Required"
  | _ => "<unknown status code>"

/-- Display of a StatusCode: the numeric code then the reason phrase. -/
def statusDisplay (s : Nat) : String :=
  toString s ++ " " ++ canonicalReason s

/-! ## Diagnostic strings of main.rs, verbatim -/

/-- Missing-key guidance (lines 238-241), printed before process::exit(1). -/
def keyGuidance : String :=
  "❌ No API key found.\n\nSet OPENROUTER_API_KEY in your environment:\n  export OPENROUTER_API_KEY=\"sk-or-v1-...\"\n\nGet a key at https://openrouter.ai/keys"

/-- Progress line of line 258. -/
def researchingLine (model effort : String) : String :=
  "🔍 Researching with " ++ model ++ " (effort: " ++ effort ++ ")..."

/-- Line 317. -/
def connectedLine : String :=
  "✅ Connected — waiting for response..."

/-- Context of the send step (line 315). -/
def connFailedLine : String :=
  "❌ Connection to OpenRouter failed — check your network and retry?"

/-- Context of the body-read step (line 320). -/
def connLostLine : String :=
  "❌ Connection to OpenRouter lost while waiting for response. Retry?"

/-- 401 branch (lines 326-329). -/
def authFailedMsg : String :=
  "Authentication failed (401). Check your OPENROUTER_API_KEY.\nGet a key at https://openrouter.ai/keys"

/-- 402 branch (lines 330-333). -/
def insufficientCreditsMsg : String :=
  "Insufficient credits (402). Add credits at https://openrouter.ai/credits"

/-- 429 branch (lines 334-335). -/
def rateLimitedMsg : String :=
  "Rate limited (429). Wait a moment and try again."

/-- Generic non-2xx branch (line 337): raw status Display plus body text. -/
def genericApiErrMsg (status : Nat) (body : String) : String :=
  "API error (" ++ statusDisplay status ++ "): " ++ body

/-- Error-envelope bail (line 348). -/
def apiErrorEnvelopeMsg (m : String) : String :=
  "API error: " ++ m

/-- Line 366. -/
def noContentWarn : String :=
  "⚠️ No content in response"

/-- Line 371. -/
def noChoicesWarn : String :=
  "⚠️ No choices in response"

/-- Reasoning trace as printed by line 358 (labeled delimiter wrapping). -/
def reasoningWrapped (r : String) : String :=
  "\n💭 Reasoning:\n" ++ r ++ "\n---"

/-- Token-usage line (lines 377-380). -/
def usageLine (p c t e : Nat) : String :=
  "\n📊 Tokens: " ++ toString p ++ " prompt + " ++ toString c ++
  " completion = " ++ toString t ++ " total | ⏱ " ++ toString e ++ "s"

/-- Elapsed-only line (line 382). -/
def timeOnlyLine (e : Nat) : String :=
  "\n⏱ " ++ toString e ++ "s"

/-- Usage summary: full counts when usage was present, elapsed only
otherwise. -/
def usagePart : Option Usage → Nat → String
  | some u, e => usageLine u.prompt_tokens u.completion_tokens u.total_tokens e
  | none, e => timeOnlyLine e

/-- Panic report of a failed byte slice in the parse diagnostic (line 344). -/
def panicLine : String :=
  "thread panicked: byte index is not a char boundary"

/-- Message of the non-2xx bail, branched on the code (lines 324-339). -/
def statusErrLine (status : Nat) (body : String) : String :=
  if status = 401 then authFailedMsg
  else if status = 402 then insufficientCreditsMsg
  else if status = 429 then rateLimitedMsg
  else genericApiErrMsg status body

/-! ## Success branch (lines 347-386) -/

/-- Output of the post-parse portion of main: stdout contents, ordered
stderr lines, exit code. -/
structure SuccessOut where
  stdout : String
  stderr : List String
  exitCode : Nat
deriving DecidableEq, Repr

/-- Lines 347-386: error envelope check, first-choice extraction, reasoning
trace, content/warnings, usage summary, explicit exit(0). -/
def successBranch (resp : ChatResponse) (elapsed : Nat) : SuccessOut :=
  match resp.error with
  | some e => ⟨"", [apiErrorEnvelopeMsg e.message], 1⟩
  | none =>
    let front : String × List String :=
      match resp.choices with
      | none => ("", [noChoicesWarn])
      | some choices =>
        match choices.head? with
        | none => ("", [])
        | some choice =>
          match choice.message with
          | none => ("", [])
          | some msg =>
            let traceLines :=
              match Option.or msg.reasoning msg.reasoning_content with
              | some r => if r.isEmpty then [] else [reasoningWrapped r]
              | none => []
            match msg.content with
            | some content => (content ++ "\n", traceLines)
            | none => ("", traceLines ++ [noContentWarn])
    ⟨front.1, front.2 ++ [usagePart resp.usage elapsed], 0⟩

/-! ## The full request lifecycle of main (lines 224-387) -/

/-- Outcome of the HTTP exchange as seen by main: the send failed, the body
read failed after a response arrived, or a status and body were obtained. -/
inductive HttpResult where
  | sendFailure
  | recvFailure
  | ok (status : Nat) (body : String)
deriving DecidableEq, Repr

/-- Observable result of one process run: stdout contents, ordered stderr
lines (eprintln payloads and bail messages), exit code, and instrumentation
of the straight-line flow: whether the HTTP POST was issued, whether
`timer_handle.abort()` (line 322) was executed, and whether
`serde_json::from_str` (line 341) ran on the body. -/
structure ProcResult where
  stdout : String
  stderr : List String
  exitCode : Nat
  networkAttempted : Bool
  timerAborted : Bool
  bodyParsed : Bool
deriving DecidableEq, Repr

/-- Straight-line flow of main for one invocation: key check (line 238),
query construction (line 244), the POST (line 307), status branch
(line 324), parse with its eagerly-built context diagnostic (line 341,
`none` from `parseDiagnostic` is the byte-slice panic, exit code 101), the
error envelope and success handling.  `timer_handle.abort()` sits after the
two transport `?` operators, so it executes exactly when a status and body
were obtained. -/
def runMain (args : Args) (stdinContent : String) (http : HttpResult)
    (elapsed : Nat) : ProcResult :=
  match args.api_key with
  | none => ⟨"", [keyGuidance], 1, false, false, false⟩
  | some _ =>
    match buildQuery args stdinContent with
    | Except.error msg => ⟨"", [msg], 1, false, false, false⟩
    | Except.ok _ =>
      let progress := researchingLine args.model args.effort
      match http with
      | HttpResult.sendFailure =>
        ⟨"", [progress, connFailedLine], 1, true, false, false⟩
      | HttpResult.recvFailure =>
        ⟨"", [progress, connectedLine, connLostLine], 1, true, false, false⟩
      | HttpResult.ok status body =>
        if isSuccessStatus status then
          match parseChatResponse body, parseDiagnostic body with
          | _, none =>
            ⟨"", [progress, connectedLine, panicLine], 101, true, true, true⟩
          | none, some diag =>
            ⟨"", [progress, connectedLine, diag], 1, true, true, true⟩
          | some resp, some _ =>
            let s := successBranch resp elapsed
            ⟨s.stdout, [progress, connectedLine] ++ s.stderr, s.exitCode,
             true, true, true⟩
        else
          ⟨"", [progress, connectedLine, statusErrLine status body], 1,
           true, true, false⟩

/-! ## Shared helper lemmas and concrete fixtures -/

/-- Any list is a Boolean prefix of itself followed by anything. -/
theorem isPrefixOf_append_self (l t : List Char) :
    List.isPrefixOf l (l ++ t) = true := by
  induction l with
  | nil => simp [List.isPrefixOf]
  | cons a as ih => simp [List.isPrefixOf, ih]

/-- Concrete argument vector with a key and a positional query, used by
several witnesses. -/
def stockArgs : Args :=
  ⟨["What", "is", "the", "capital", "of", "France?"], false,
   "openai/gpt-5.2:online", "low", none, 12800, none, some "sk-or-v1-test"⟩

/-- Concrete argument vector with no resolvable key. -/
def noKeyArgs : Args :=
  ⟨["q"], false, "openai/gpt-5.2:online", "low", none, 12800, none, none⟩

/-- Concrete argument vector with the stdin flag set and positional tokens
also present. -/
def stdinArgs : Args :=
  ⟨["these", "are", "ignored"], true, "openai/gpt-5.2:online", "low", none,
   12800, none, some "sk-or-v1-test"⟩

/-! ## C1 -/

/-- Body of 201 bytes: 199 one-byte characters followed by one two-byte
character, so byte index 200 falls strictly inside the final character.
Not valid JSON. -/
def c1Body : String := String.mk (List.replicate 199 'a') ++ "é"

/-- C1: the claim states that on a success status with a malformed-JSON body
the parse-failure diagnostic (first 200 characters of the body) is built
totally, never panicking.  The code slices the first `200.min(len)` BYTES
(`&text[..200.min(text.len())]`), which panics when byte 200 is inside a
multi-byte character: on `c1Body` (malformed JSON, 201 bytes, byte 200
inside the final two-byte character) the diagnostic builder panics
(`parseDiagnostic` = none) and the run aborts with the panic exit code
instead of reporting the diagnostic. -/
theorem c1_parse_diagnostic_panics :
    byteLen c1Body = 201 ∧
    parseDiagnostic c1Body = none ∧
    parseChatResponse c1Body = none ∧
    (runMain stockArgs "" (HttpResult.ok 200 c1Body) 0).exitCode = 101 ∧
    (runMain stockArgs "" (HttpResult.ok 200 c1Body) 0).stdout = "" :=
  ⟨rfl, rfl, rfl, rfl, rfl⟩

/-! ## C5 -/

/-- C5: request construction is a pure function of the resolved
configuration; the built ChatRequest has exactly the system message at index
0 (resolved persona) and the user message at index 1 (resolved query,
verbatim), `reasoning.effort` is the configured effort string verbatim, and
serializing twice from the same configuration gives identical bytes (the
construction consumes nothing but the configuration). -/
theorem c5_request_construction (cfg : QueryConfig) :
    (buildChatRequest cfg).messages =
      [⟨"system", cfg.systemPrompt⟩, ⟨"user", cfg.userQuery⟩] ∧
    (buildChatRequest cfg).messages.length = 2 ∧
    (buildChatRequest cfg).reasoning = some ⟨cfg.effort⟩ ∧
    serializeChatRequest (buildChatRequest cfg) =
      "\x7b\"model\":" ++ jsonStr cfg.model ++
      ",\"messages\":[" ++ serializeMessage ⟨"system", cfg.systemPrompt⟩ ++
      "," ++ serializeMessage ⟨"user", cfg.userQuery⟩ ++
      "],\"max_tokens\":" ++ toString cfg.maxTokens ++
      ",\"reasoning\":\x7b\"effort\":" ++ jsonStr cfg.effort ++ "\x7d\x7d" ∧
    serializeChatRequest (buildChatRequest cfg) =
      serializeChatRequest (buildChatRequest cfg) := by
  refine ⟨rfl, rfl, rfl, ?_, rfl⟩
  have hext : ∀ a b : String, a.data = b.data → a = b := by
    intro a b hab
    cases a
    cases b
    exact congrArg String.mk hab
  apply hext
  simp [serializeChatRequest, buildChatRequest, String.intercalate,
    String.intercalate.go, serializeMessage, String.data_append,
    List.append_assoc]

/-! ## C9 -/

/-- C9: with no API key resolvable from flag, environment or dotenv file,
the run prints the remediation guidance to the diagnostic stream and stops
with a non-zero code before the network call is issued. -/
theorem c9_missing_key (args : Args) (stdinContent : String)
    (http : HttpResult) (elapsed : Nat) (h : args.api_key = none) :
    (runMain args stdinContent http elapsed).exitCode = 1 ∧
    keyGuidance ∈ (runMain args stdinContent http elapsed).stderr ∧
    (runMain args stdinContent http elapsed).networkAttempted = false := by
  simp [runMain, h]

/-- C9 witness: the missing-key run at a concrete argument vector. -/
theorem c9_missing_key_witness :
    (runMain noKeyArgs "" HttpResult.sendFailure 0).exitCode = 1 ∧
    keyGuidance ∈ (runMain noKeyArgs "" HttpResult.sendFailure 0).stderr ∧
    (runMain noKeyArgs "" HttpResult.sendFailure 0).networkAttempted = false :=
  c9_missing_key noKeyArgs "" HttpResult.sendFailure 0 rfl

/-! ## C10 -/

/-- C10: with the stdin flag set, the query is exactly the trimmed stdin
text; the positional tokens are ignored (the built request does not depend
on them), they do not trigger the no-query error, and the user message
carries the trimmed stdin text. -/
theorem c10_stdin_ignores_positional (args : Args) (stdinContent : String)
    (h : args.stdinFlag = true) :
    buildQuery args stdinContent = Except.ok (rustTrim stdinContent) ∧
    requestOf args stdinContent = requestOf { args with query := [] } stdinContent ∧
    ∃ req, requestOf args stdinContent = Except.ok req ∧
      req.messages = [⟨"system", resolveSystemPrompt args⟩,
                      ⟨"user", rustTrim stdinContent⟩] := by
  refine ⟨?_, ?_, ?_⟩
  · simp [buildQuery, h]
  · simp [requestOf, buildQuery, h, resolveSystemPrompt]
  · exact ⟨buildChatRequest ⟨args.model, args.effort, resolveSystemPrompt args,
      rustTrim stdinContent, args.max_tokens⟩,
      by simp [requestOf, buildQuery, h, Except.map], rfl⟩

/-- C10 witness: stdin mode at a concrete argument vector carrying
positional tokens. -/
theorem c10_stdin_ignores_positional_witness :
    buildQuery stdinArgs "  the actual question\n" =
      Except.ok (rustTrim "  the actual question\n") ∧
    requestOf stdinArgs "  the actual question\n" =
      requestOf { stdinArgs with query := [] } "  the actual question\n" ∧
    ∃ req, requestOf stdinArgs "  the actual question\n" = Except.ok req ∧
      req.messages = [⟨"system", resolveSystemPrompt stdinArgs⟩,
                      ⟨"user", rustTrim "  the actual question\n"⟩] :=
  c10_stdin_ignores_positional stdinArgs "  the actual question\n" rfl

/-! ## C3 -/

/-- C3 counterexample: in stdin mode with whitespace-only stdin the selected
query source yields empty text after trimming, yet the claimed
"no query provided" failure does not happen — the run proceeds to the
network call (the query check only fires for an empty positional list when
the stdin flag is off). -/
theorem c3_counterexample :
    buildQuery stdinArgs "   \n" = Except.ok "" ∧
    noQueryMsg ∉ (runMain stdinArgs "   \n" HttpResult.sendFailure 0).stderr ∧
    (runMain stdinArgs "   \n" HttpResult.sendFailure 0).networkAttempted = true :=
  ⟨rfl, by decide, rfl⟩

/-- C3 amended: the "no query provided" error fires exactly when the stdin
flag is off and the positional argument list is empty.  In stdin mode the
query is the trimmed stdin text and the run proceeds to the network call
even when that text is empty; whitespace-only positional arguments likewise
pass through (joined, untrimmed) without the error. -/
theorem c3_amended (args : Args) (stdinContent : String) (http : HttpResult)
    (elapsed : Nat) (k : String) (hk : args.api_key = some k) :
    (args.stdinFlag = false →
      (buildQuery args stdinContent = Except.error noQueryMsg ↔
        args.query = [])) ∧
    (args.stdinFlag = true →
      buildQuery args stdinContent = Except.ok (rustTrim stdinContent) ∧
      (runMain args stdinContent http elapsed).networkAttempted = true) := by
  constructor
  · intro h
    cases hq : args.query with
    | nil => simp [buildQuery, h, hq]
    | cons a as => simp [buildQuery, h, hq]
  · intro h
    refine ⟨by simp [buildQuery, h], ?_⟩
    cases http with
    | sendFailure => simp [runMain, hk, buildQuery, h]
    | recvFailure => simp [runMain, hk, buildQuery, h]
    | ok status body =>
      by_cases hs : isSuccessStatus status
      · rcases hpd : parseDiagnostic body with _ | diag
        · simp [runMain, hk, buildQuery, h, hs, hpd]
        · rcases hpc : parseChatResponse body with _ | resp
          · simp [runMain, hk, buildQuery, h, hs, hpd, hpc]
          · simp [runMain, hk, buildQuery, h, hs, hpd, hpc]
      · simp [runMain, hk, buildQuery, h, hs]

/-- C3 amended witness: the instantiated statement at a concrete key-bearing
argument vector. -/
theorem c3_amended_witness :
    (stockArgs.stdinFlag = false →
      (buildQuery stockArgs "" = Except.error noQueryMsg ↔
        stockArgs.query = [])) ∧
    (stockArgs.stdinFlag = true →
      buildQuery stockArgs "" = Except.ok (rustTrim "") ∧
      (runMain stockArgs "" HttpResult.sendFailure 0).networkAttempted = true) :=
  c3_amended stockArgs "" HttpResult.sendFailure 0 "sk-or-v1-test" rfl

/-! ## C4 -/

/-- C4 counterexample: on both transport-failure paths (send failure and
body-read failure) `timer_handle.abort()` is never executed — the two `?`
operators return from main before line 322 — so the ticker task is
abandoned, not cancelled, contradicting the claim that it is cancelled on
every execution path. -/
theorem c4_counterexample :
    (runMain stockArgs "" HttpResult.sendFailure 0).timerAborted = false ∧
    (runMain stockArgs "" HttpResult.recvFailure 0).timerAborted = false := by
  decide

/-- C4 amended: the ticker is cancelled via `abort()` exactly on the paths
where a status and body were obtained (non-success status, parse failure,
error envelope, success); on transport failure during send or while reading
the body, the abort call is skipped and the spawned task is merely
abandoned as the process terminates. -/
theorem c4_amended (args : Args) (stdinContent q k : String)
    (http : HttpResult) (elapsed : Nat)
    (hk : args.api_key = some k)
    (hq : buildQuery args stdinContent = Except.ok q) :
    (runMain args stdinContent http elapsed).timerAborted = true ↔
      ∃ status body, http = HttpResult.ok status body := by
  cases http with
  | sendFailure => simp [runMain, hk, hq]
  | recvFailure => simp [runMain, hk, hq]
  | ok status body =>
    have ht : (runMain args stdinContent (HttpResult.ok status body)
        elapsed).timerAborted = true := by
      by_cases hs : isSuccessStatus status
      · rcases hpd : parseDiagnostic body with _ | diag
        · simp [runMain, hk, hq, hs, hpd]
        · rcases hpc : parseChatResponse body with _ | resp
          · simp [runMain, hk, hq, hs, hpd, hpc]
          · simp [runMain, hk, hq, hs, hpd, hpc]
      · simp [runMain, hk, hq, hs]
    simp only [ht, true_iff]
    exact ⟨status, body, rfl⟩

/-- C4 amended witness: with a body obtained (status 500), the abort does
execute. -/
theorem c4_amended_witness :
    (runMain stockArgs "" (HttpResult.ok 500 "oops") 0).timerAborted = true :=
  (c4_amended stockArgs "" "What is the capital of France?" "sk-or-v1-test"
    (HttpResult.ok 500 "oops") 0 rfl rfl).mpr ⟨500, "oops", rfl⟩

/-! ## C6 -/

/-- C6: every non-2xx status terminates the run non-zero with nothing on
stdout and without parsing the JSON body; the bail message is the
authentication diagnostic for 401, the insufficient-credits diagnostic for
402, the rate-limit diagnostic for 429, and otherwise the generic
diagnostic, which carries the raw status Display and the body text; the
three specific diagnostics are distinct from the generic branch (none of
them starts with its "API error (" shape). -/
theorem c6_non_success_status (args : Args) (stdinContent k q body : String)
    (status elapsed : Nat) (hk : args.api_key = some k)
    (hq : buildQuery args stdinContent = Except.ok q)
    (hs : isSuccessStatus status = false) :
    (runMain args stdinContent (HttpResult.ok status body) elapsed).exitCode = 1 ∧
    (runMain args stdinContent (HttpResult.ok status body) elapsed).bodyParsed = false ∧
    (runMain args stdinContent (HttpResult.ok status body) elapsed).stdout = "" ∧
    statusErrLine status body ∈
      (runMain args stdinContent (HttpResult.ok status body) elapsed).stderr ∧
    (status = 401 → statusErrLine status body = authFailedMsg) ∧
    (status = 402 → statusErrLine status body = insufficientCreditsMsg) ∧
    (status = 429 → statusErrLine status body = rateLimitedMsg) ∧
    (status ≠ 401 → status ≠ 402 → status ≠ 429 →
      statusErrLine status body = genericApiErrMsg status body) ∧
    genericApiErrMsg status body =
      "API error (" ++ (toString status ++ (" " ++ (canonicalReason status ++
        ("): " ++ body)))) ∧
    strStartsWith "API error (" (genericApiErrMsg status body) = true ∧
    strStartsWith "API error (" authFailedMsg = false ∧
    strStartsWith "API error (" insufficientCreditsMsg = false ∧
    strStartsWith "API error (" rateLimitedMsg = false := by
  have hgen : genericApiErrMsg status body =
      "API error (" ++ (statusDisplay status ++ ("): " ++ body)) := by
    simp [genericApiErrMsg, String.append_assoc]
  refine ⟨?_, ?_, ?_, ?_, ?_, ?_, ?_, ?_, ?_, ?_, by decide, by decide, by decide⟩
  · simp [runMain, hk, hq, hs]
  · simp [runMain, hk, hq, hs]
  · simp [runMain, hk, hq, hs]
  · simp [runMain, hk, hq, hs]
  · intro h
    simp [statusErrLine, h]
  · intro h
    simp [statusErrLine, h]
  · intro h
    simp [statusErrLine, h]
  · intro h1 h2 h3
    simp [statusErrLine, h1, h2, h3]
  · simp [hgen, statusDisplay, String.append_assoc]
  · simp only [strStartsWith, hgen, String.data_append]
    exact isPrefixOf_append_self _ _

/-- C6 witness: a concrete non-2xx run (status 500). -/
theorem c6_non_success_status_witness :
    (runMain stockArgs "" (HttpResult.ok 500 "oops") 0).exitCode = 1 ∧
    (runMain stockArgs "" (HttpResult.ok 500 "oops") 0).bodyParsed = false :=
  ⟨(c6_non_success_status stockArgs "" "sk-or-v1-test"
      "What is the capital of France?" "oops" 500 0 rfl rfl rfl).1,
   (c6_non_success_status stockArgs "" "sk-or-v1-test"
      "What is the capital of France?" "oops" 500 0 rfl rfl rfl).2.1⟩

/-! ## C2 -/

/-- Modelled from the spec's words, for comparison only: the reasoning trace
the claim says is printed — the first non-empty field among `reasoning` and
`reasoning_content`, in that order. -/
def specClaimedReasoningChoice (msg : MessageContent) : Option String :=
  match msg.reasoning with
  | some r =>
    if r.isEmpty then
      match msg.reasoning_content with
      | some rc => if rc.isEmpty then none else some rc
      | none => none
    else some r
  | none =>
    match msg.reasoning_content with
    | some rc => if rc.isEmpty then none else some rc
    | none => none

/-- C2 counterexample fixture: `reasoning` present but empty,
`reasoning_content` present and non-empty. -/
def c2Resp : ChatResponse :=
  ⟨some [⟨some ⟨some "ans", some "", some "x"⟩⟩], none, none⟩

/-- C2 counterexample: the claim (and spec) select the first NON-EMPTY
field, so here the trace "x" should be printed; the code selects the first
PRESENT field (`Option::or`), lands on the empty `reasoning`, fails its
emptiness test, and prints no trace at all. -/
theorem c2_counterexample :
    specClaimedReasoningChoice ⟨some "ans", some "", some "x"⟩ = some "x" ∧
    reasoningWrapped "x" ∉ (successBranch c2Resp 0).stderr ∧
    (successBranch c2Resp 0).stderr = [usagePart none 0] := by
  decide

/-- C2 amended: the printed reasoning trace is the first PRESENT field among
`reasoning` and `reasoning_content` (in that order), printed wrapped only
when non-empty; in particular a present-but-empty `reasoning` suppresses
the trace entirely, regardless of `reasoning_content`, and
`reasoning_content` is only consulted when `reasoning` is absent. -/
theorem c2_reasoning_first_present (resp : ChatResponse) (elapsed : Nat)
    (choice : Choice) (rest : List Choice) (msg : MessageContent)
    (he : resp.error = none) (hc : resp.choices = some (choice :: rest))
    (hm : choice.message = some msg) :
    (∀ r, msg.reasoning = some r → r ≠ "" →
      reasoningWrapped r ∈ (successBranch resp elapsed).stderr) ∧
    (msg.reasoning = some "" →
      (successBranch resp elapsed).stderr =
        (match msg.content with
         | some _ => []
         | none => [noContentWarn]) ++ [usagePart resp.usage elapsed]) ∧
    (msg.reasoning = none → ∀ rc, msg.reasoning_content = some rc → rc ≠ "" →
      reasoningWrapped rc ∈ (successBranch resp elapsed).stderr) := by
  refine ⟨?_, ?_, ?_⟩
  · intro r hr hne
    have hie : r.isEmpty = false := by
      rw [Bool.eq_false_iff]
      simp [String.isEmpty_iff, hne]
    cases hcont : msg.content <;>
      simp [successBranch, he, hc, hm, hr, hcont, Option.or, hie]
  · intro hr
    have h0 : "".isEmpty = true := rfl
    cases hcont : msg.content <;>
      simp [successBranch, he, hc, hm, hr, hcont, Option.or, h0]
  · intro hr rc hrc hne
    have hie : rc.isEmpty = false := by
      rw [Bool.eq_false_iff]
      simp [String.isEmpty_iff, hne]
    cases hcont : msg.content <;>
      simp [successBranch, he, hc, hm, hr, hrc, hcont, Option.or, hie]

/-- C2 amended witness: a present non-empty `reasoning` is printed wrapped. -/
theorem c2_reasoning_first_present_witness :
    reasoningWrapped "tr" ∈
      (successBranch ⟨some [⟨some ⟨some "a", some "tr", none⟩⟩], none, none⟩
        1).stderr :=
  (c2_reasoning_first_present
    ⟨some [⟨some ⟨some "a", some "tr", none⟩⟩], none, none⟩ 1
    ⟨some ⟨some "a", some "tr", none⟩⟩ [] ⟨some "a", some "tr", none⟩
    rfl rfl rfl).1 "tr" rfl (by decide)

/-! ## C8 -/

/-- C8 counterexample fixture: a well-formed response with `choices`
present but empty and no error envelope. -/
def c8Resp : ChatResponse := ⟨some [], none, none⟩

/-- C8 counterexample: the claim says an absent OR EMPTY `choices` produces
a distinct warning; with `choices: []` the code's `choices.first()` is
`None` and it silently prints no warning at all (exit is still 0). -/
theorem c8_counterexample :
    (successBranch c8Resp 0).exitCode = 0 ∧
    noChoicesWarn ∉ (successBranch c8Resp 0).stderr ∧
    noContentWarn ∉ (successBranch c8Resp 0).stderr ∧
    (successBranch c8Resp 0).stderr = [usagePart none 0] := by
  decide

/-- C8 amended: without an error envelope the exit status is always 0; an
ABSENT `choices` yields the distinct "no choices" warning; a present but
EMPTY `choices` yields no warning at all (still exit 0); a first choice
whose message lacks `content` yields the "no content" warning with nothing
on stdout. -/
theorem c8_soft_anomalies (resp : ChatResponse) (elapsed : Nat)
    (he : resp.error = none) :
    (successBranch resp elapsed).exitCode = 0 ∧
    (resp.choices = none →
      (successBranch resp elapsed).stderr =
        [noChoicesWarn, usagePart resp.usage elapsed]) ∧
    (resp.choices = some [] →
      (successBranch resp elapsed).stderr = [usagePart resp.usage elapsed]) ∧
    (∀ choice rest msg, resp.choices = some (choice :: rest) →
      choice.message = some msg → msg.content = none →
      (successBranch resp elapsed).stdout = "" ∧
      noContentWarn ∈ (successBranch resp elapsed).stderr) := by
  refine ⟨?_, ?_, ?_, ?_⟩
  · simp [successBranch, he]
  · intro h
    simp [successBranch, he, h]
  · intro h
    simp [successBranch, he, h]
  · intro choice rest msg hc hm hcont
    constructor
    · simp [successBranch, he, hc, hm, hcont]
    · rcases hOr : Option.or msg.reasoning msg.reasoning_content with _ | r
      · simp [successBranch, he, hc, hm, hcont, hOr]
      · cases hie : r.isEmpty <;>
          simp [successBranch, he, hc, hm, hcont, hOr, hie]

/-- C8 amended witness: absent `choices` warns and exits 0. -/
theorem c8_soft_anomalies_witness :
    (successBranch ⟨none, none, none⟩ 0).exitCode = 0 ∧
    (successBranch ⟨none, none, none⟩ 0).stderr =
      [noChoicesWarn, usagePart none 0] :=
  ⟨(c8_soft_anomalies ⟨none, none, none⟩ 0 rfl).1,
   (c8_soft_anomalies ⟨none, none, none⟩ 0 rfl).2.1 rfl⟩

/-! ## C7 -/

/-- The concrete response body of the claim. -/
def body7 : String :=
  "\x7b\"choices\":[\x7b\"message\":\x7b\"content\":\"Paris\"\x7d\x7d],\"usage\":\x7b\"prompt_tokens\":10,\"completion_tokens\":2,\"total_tokens\":12\x7d\x7d"

/-- C7: on a success status with the given body, stdout receives exactly
"Paris" plus a trailing newline and nothing else, stderr carries a
token-usage line containing 10, 2 and 12, and the exit status is 0. -/
theorem c7_concrete_success :
    parseChatResponse body7 =
      some ⟨some [⟨some ⟨some "Paris", none, none⟩⟩], some ⟨10, 2, 12⟩, none⟩ ∧
    (runMain stockArgs "" (HttpResult.ok 200 body7) 3).stdout = "Paris\n" ∧
    (runMain stockArgs "" (HttpResult.ok 200 body7) 3).exitCode = 0 ∧
    (runMain stockArgs "" (HttpResult.ok 200 body7) 3).stderr =
      [researchingLine "openai/gpt-5.2:online" "low", connectedLine,
       usageLine 10 2 12 3] ∧
    usageLine 10 2 12 3 ∈ (runMain stockArgs "" (HttpResult.ok 200 body7) 3).stderr ∧
    strContainsSub "10" (usageLine 10 2 12 3) = true ∧
    strContainsSub "2" (usageLine 10 2 12 3) = true ∧
    strContainsSub "12" (usageLine 10 2 12 3) = true :=
  ⟨rfl, rfl, rfl, by decide, by decide, by decide, by decide, by decide⟩
